import Mathlib

/-!
Verification of the Intel HDA controller bring-up core
(src/system/udev/intel-hda/controller/intel-hda-controller-init.cpp),
shallowly embedded in Lean 4.

Registers are modelled as natural numbers (values of the C unsigned
types, with explicit `% 2^w` or masking where a truncating cast occurs
in the source).  Each function of the source that a claim relies on is
translated into a pure Lean function over the values it reads, together
with the values/register writes it produces; early-exit error paths
become explicit result values.  External collaborators (memory
allocator, PCI services) are abstracted as boolean/status oracles
passed as parameters.
-/

namespace IntelHDA

/-- The mx_status_t error codes used in this source file. -/
inductive Status
  | NO_ERROR
  | ERR_INVALID_ARGS
  | ERR_BAD_STATE
  | ERR_NOT_SUPPORTED
  | ERR_TIMED_OUT
  | ERR_NO_MEMORY
  | ERR_INTERNAL
deriving DecidableEq, Repr

/-! ## Register-layout constants

The register header (`intel-hda-registers.h`) is not part of the
provided source; the constants below are modelled from the spec's wire
layout section: the ring size register carries one capability bit per
supported entry count of 256/16/2 and accepts one of three
configuration codes, and the global-control HWINIT bit gates reset. -/

/-- Modelled from the spec: capability bit for a 2-entry ring in the
CORB/RIRB size register (missing registers header). -/
def HDA_REG_CORBSIZE_CAP_2ENT : Nat := 0x10

/-- Modelled from the spec: capability bit for a 16-entry ring. -/
def HDA_REG_CORBSIZE_CAP_16ENT : Nat := 0x20

/-- Modelled from the spec: capability bit for a 256-entry ring. -/
def HDA_REG_CORBSIZE_CAP_256ENT : Nat := 0x40

/-- Modelled from the spec: configuration code programming a 2-entry ring. -/
def HDA_REG_CORBSIZE_CFG_2ENT : Nat := 0

/-- Modelled from the spec: configuration code programming a 16-entry ring. -/
def HDA_REG_CORBSIZE_CFG_16ENT : Nat := 1

/-- Modelled from the spec: configuration code programming a 256-entry ring. -/
def HDA_REG_CORBSIZE_CFG_256ENT : Nat := 2

/-- Modelled from the spec: the global-control hardware-init bit
(GCTL/HWINIT, missing registers header). -/
def HDA_REG_GCTL_HWINIT : Nat := 1

/-- Modelled from the spec: reserved response-slot headroom constant;
the spec's end-to-end property fixes it at 8 (missing controller
header). -/
def RIRB_RESERVED_RESPONSE_SLOTS : Nat := 8

/-- Modelled from the spec: maximum byte footprint of the CORB, the
offset at which the RIRB region starts inside the shared command
buffer (256 entries of 4 bytes; missing registers header). -/
def HDA_CORB_MAX_BYTES : Nat := 1024

/-- Modelled from the spec: the fixed maximum stream-slot count
(`countof(regs_->stream_desc)` = `IntelHDAStream::MAX_STREAMS_PER_CONTROLLER`,
30 stream descriptor register sets in the HDA register block). -/
def MAX_STREAMS_PER_CONTROLLER : Nat := 30

/-! ## SetupCommandBufferSize (lines 274-297) -/

/-- Observable outcome of `SetupCommandBufferSize`: the returned
status, the value held by the size register after the call (the
written configuration code on success, the original value when nothing
was written), and the value of `*entry_count` after the call. -/
structure CmdBufSizeResult where
  status : Status
  size_reg : Nat
  entry_count : Nat
deriving DecidableEq, Repr

/-- `IntelHDAController::SetupCommandBufferSize`.  `size_reg` is the
8-bit value read from the ring's size-capability register, and
`entry_count` the value `*entry_count` holds before the call. -/
def setupCommandBufferSize (size_reg entry_count : Nat) : CmdBufSizeResult :=
  let tmp := size_reg
  if tmp &&& HDA_REG_CORBSIZE_CAP_256ENT ≠ 0 then
    ⟨Status.NO_ERROR, HDA_REG_CORBSIZE_CFG_256ENT, 256⟩
  else if tmp &&& HDA_REG_CORBSIZE_CAP_16ENT ≠ 0 then
    ⟨Status.NO_ERROR, HDA_REG_CORBSIZE_CFG_16ENT, 16⟩
  else if tmp &&& HDA_REG_CORBSIZE_CAP_2ENT ≠ 0 then
    ⟨Status.NO_ERROR, HDA_REG_CORBSIZE_CFG_2ENT, 2⟩
  else
    ⟨Status.ERR_BAD_STATE, size_reg, entry_count⟩

/-! ## SetupCommandBuffer derived quantities (lines 352-358, 401-405) -/

/-- The `corb_max_in_flight_` computation of
`IntelHDAController::SetupCommandBuffer` (lines 352-358), as a
function of the two negotiated ring entry counts. -/
def computeCorbMaxInFlight (corb_entry_count rirb_entry_count : Nat) : Nat :=
  let corb_mask := corb_entry_count - 1
  let rirb_mask := rirb_entry_count - 1
  let mif := if rirb_mask > RIRB_RESERVED_RESPONSE_SLOTS
             then rirb_mask - RIRB_RESERVED_RESPONSE_SLOTS
             else 1
  min mif corb_mask

/-- The response-interrupt threshold computation of
`IntelHDAController::SetupCommandBuffer` (lines 401-405): the value
written to the RINTCNT register. -/
def computeRirbIntCnt (rirb_entry_count : Nat) : Nat :=
  let thresh := rirb_entry_count - 1
  if thresh > RIRB_RESERVED_RESPONSE_SLOTS
  then thresh - RIRB_RESERVED_RESPONSE_SLOTS
  else thresh

/-! ## SetupCommandBuffer base-address programming (lines 362-385) -/

/-- The four ring base-address registers programmed by
`SetupCommandBuffer` (each holds a 32-bit value). -/
structure RingBaseRegs where
  corblbase : Nat
  corbubase : Nat
  rirblbase : Nat
  rirbubase : Nat
deriving DecidableEq, Repr

/-- The base-address programming step of `SetupCommandBuffer` (lines
362-385): given the command buffer's 64-bit physical address and the
GCAP 64-bit-addressing capability bit, either fail with
`ERR_NOT_SUPPORTED` before touching any base register, or produce the
four programmed register values (low 32 bits and high 32 bits of the
CORB base, then of the RIRB base at offset `HDA_CORB_MAX_BYTES`). -/
def programCmdBufBases (cmd_buf_paddr64 : Nat) (gcap_64bit_ok : Bool) :
    Except Status RingBaseRegs :=
  if cmd_buf_paddr64 >>> 32 ≠ 0 ∧ gcap_64bit_ok = false then
    Except.error Status.ERR_NOT_SUPPORTED
  else
    let rirb_paddr := cmd_buf_paddr64 + HDA_CORB_MAX_BYTES
    Except.ok
      { corblbase := cmd_buf_paddr64 &&& 0xFFFFFFFF
        corbubase := (cmd_buf_paddr64 >>> 32) % 2 ^ 32
        rirblbase := rirb_paddr &&& 0xFFFFFFFF
        rirbubase := (rirb_paddr >>> 32) % 2 ^ 32 }

/-! ## SetupStreamDescriptors (lines 198-272) -/

/-- `IntelHDAStream::Type`. -/
inductive StreamType
  | INPUT
  | OUTPUT
  | BIDIR
deriving DecidableEq, Repr

/-- The observable data of one constructed `IntelHDAStream`: its
type, its 1-based stream id, and the byte offset of its BDL sub-region
inside the shared BDL allocation (both the physical and the virtual
BDL pointer are `bdl_mem_ base + bdl_off`, so the offset determines
them). -/
structure StreamDesc where
  type : StreamType
  stream_id : Nat
  bdl_off : Nat
deriving DecidableEq, Repr

/-- The stream type chosen for loop index `i` (lines 246-250). -/
def streamTypeFor (input_stream_cnt output_stream_cnt i : Nat) : StreamType :=
  if i < input_stream_cnt then StreamType.INPUT
  else if i < input_stream_cnt + output_stream_cnt then StreamType.OUTPUT
  else StreamType.BIDIR

/-- The stream descriptor list built by the loop of lines 244-269:
index `i` gets stream id `i + 1`, its classified type, and BDL offset
`i * bdl_size`. -/
def mkStreamDescs (input_stream_cnt output_stream_cnt total_stream_cnt bdl_size : Nat) :
    List StreamDesc :=
  (List.range total_stream_cnt).map fun i =>
    { type := streamTypeFor input_stream_cnt output_stream_cnt i
      stream_id := i + 1
      bdl_off := i * bdl_size }

/-- Modelled from the spec: the per-stream BDL region byte size
`sizeof(IntelHDABDLEntry) * IntelHDAStream::MAX_BDL_LENGTH` (the
stream header with both constants is not in the provided source; a
16-byte BDL entry and a 256-entry maximum list give 4096). -/
def bdl_size : Nat := 16 * 256

/-- Observable outcome of `SetupStreamDescriptors`: the returned
status, the byte size requested from the contiguous BDL allocator
(`none` when allocation was never attempted), and the list of stream
descriptors created. -/
structure StreamSetupResult where
  status : Status
  bdl_alloc_bytes : Option Nat
  streams : List StreamDesc
deriving DecidableEq, Repr

/-- `IntelHDAController::SetupStreamDescriptors`, as a function of the
three stream counts unpacked from the GCAP register and of the outcome
of the two external memory operations (`bdl_mem_.Allocate`,
`bdl_mem_.Map`), abstracted as booleans; a failing allocation is
reported as the allocator's no-memory failure. -/
def setupStreamDescriptors (input_stream_cnt output_stream_cnt bidir_stream_cnt : Nat)
    (alloc_ok map_ok : Bool) : StreamSetupResult :=
  let total_stream_cnt := input_stream_cnt + output_stream_cnt + bidir_stream_cnt
  if total_stream_cnt = 0 ∨ total_stream_cnt > MAX_STREAMS_PER_CONTROLLER then
    { status := Status.ERR_INTERNAL, bdl_alloc_bytes := none, streams := [] }
  else
    let total_bdl_size := bdl_size * total_stream_cnt
    if alloc_ok = false then
      { status := Status.ERR_NO_MEMORY, bdl_alloc_bytes := some total_bdl_size, streams := [] }
    else if map_ok = false then
      { status := Status.ERR_NO_MEMORY, bdl_alloc_bytes := some total_bdl_size, streams := [] }
    else
      { status := Status.NO_ERROR
        bdl_alloc_bytes := some total_bdl_size
        streams := mkStreamDescs input_stream_cnt output_stream_cnt total_stream_cnt bdl_size }

/-! ## ResetControllerHW (lines 21-65) and the wait primitive -/

/-- Modelled from the spec: the `WaitCondition` polling primitive
(defined in `utils.h`, not part of the provided source).  It evaluates
the predicate at the poll interval until it holds or the total timeout
elapses, returning success or a timeout failure; the predicate is
applied to the elapsed time of each poll. -/
def waitCondition (timeout_nsec poll_interval_nsec : Nat) (cond : Nat → Bool) : Status :=
  if (List.range (timeout_nsec / poll_interval_nsec + 1)).any
       (fun k => cond (k * poll_interval_nsec))
  then Status.NO_ERROR
  else Status.ERR_TIMED_OUT

/-- Timing constants of the anonymous namespace (lines 13-17). -/
def INTEL_HDA_RESET_HOLD_TIME_NSEC : Nat := 100000

def INTEL_HDA_RESET_TIMEOUT_NSEC : Nat := 1000000

def INTEL_HDA_RESET_POLL_TIMEOUT_NSEC : Nat := 10000

def INTEL_HDA_CODEC_DISCOVERY_WAIT_NSEC : Nat := 521000

/-- The externally observable actions of `ResetControllerHW`, in
program order. -/
inductive ResetStep
  | clearHwInit
  | barrierA
  | pollCleared
  | sleepHold
  | setHwInit
  | barrierB
  | pollSet
  | sleepDiscovery
deriving DecidableEq, Repr

/-- The GCTL-read predicate of the first polling wait (lines 30-33):
the HWINIT bit reads as cleared. -/
def gctlClearedPred (gctl_reads : Nat → Nat) (t : Nat) : Bool :=
  gctl_reads t &&& HDA_REG_GCTL_HWINIT == 0

/-- The GCTL-read predicate of the second polling wait (lines 48-51):
the HWINIT bit reads as set. -/
def gctlSetPred (gctl_reads : Nat → Nat) (t : Nat) : Bool :=
  gctl_reads t &&& HDA_REG_GCTL_HWINIT != 0

/-- `IntelHDAController::ResetControllerHW`.  The hardware's
asynchronous behaviour is abstracted as two read traces giving the
GCTL value observed at each elapsed poll time during the two waits.
The result pairs the returned status with the ordered list of actions
the function performed before returning. -/
def resetControllerHW (phase1_reads phase2_reads : Nat → Nat) : Status × List ResetStep :=
  let trace1 := [ResetStep.clearHwInit, ResetStep.barrierA, ResetStep.pollCleared]
  let res1 := waitCondition INTEL_HDA_RESET_TIMEOUT_NSEC INTEL_HDA_RESET_POLL_TIMEOUT_NSEC
                (gctlClearedPred phase1_reads)
  if res1 ≠ Status.NO_ERROR then (res1, trace1)
  else
    let trace2 := trace1 ++ [ResetStep.sleepHold, ResetStep.setHwInit,
                             ResetStep.barrierB, ResetStep.pollSet]
    let res2 := waitCondition INTEL_HDA_RESET_TIMEOUT_NSEC INTEL_HDA_RESET_POLL_TIMEOUT_NSEC
                  (gctlSetPred phase2_reads)
    if res2 ≠ Status.NO_ERROR then (res2, trace2)
    else (Status.NO_ERROR, trace2 ++ [ResetStep.sleepDiscovery])

/-! ## Init entry checks (lines 97-107, 419-424, 509-516) -/

/-- The bring-up actions that follow the entry checks of
`SetupPCIDevice`; only their presence or absence matters here. -/
inductive InitAction
  | acquirePciResources
  | checkHwVersion
  | resetHw
  | setupStreams
  | setupCmdBuf
  | publishDevice
deriving DecidableEq, Repr

/-- The entry checks of `IntelHDAController::SetupPCIDevice` (lines
100-107): a null device pointer fails with `ERR_INVALID_ARGS`, an
already-populated `pci_dev_` fails with `ERR_BAD_STATE`, and only
otherwise does the function proceed to PCI resource acquisition. -/
def setupPCIDeviceGuard (pci_dev_null already_set_up : Bool) :
    Status × List InitAction :=
  if pci_dev_null then (Status.ERR_INVALID_ARGS, [])
  else if already_set_up then (Status.ERR_BAD_STATE, [])
  else (Status.NO_ERROR, [InitAction.acquirePciResources])

/-- `IntelHDAController::InitInternal` up to its first step:
`SetupPCIDevice` runs first, and any failure returns immediately; the
remainder of bring-up is abstracted as `rest`. -/
def initInternalGuard (pci_dev_null already_set_up : Bool)
    (rest : Status × List InitAction) : Status × List InitAction :=
  let first := setupPCIDeviceGuard pci_dev_null already_set_up
  if first.1 ≠ Status.NO_ERROR then first
  else (rest.1, first.2 ++ rest.2)

/-- `IntelHDAController::Init` (lines 509-516): it returns
`InitInternal`'s status unchanged (`DeviceShutdown` on failure does not
alter the returned status). -/
def initGuard (pci_dev_null already_set_up : Bool)
    (rest : Status × List InitAction) : Status × List InitAction :=
  initInternalGuard pci_dev_null already_set_up rest

/-! ## Device naming (lines 115-124 and 451-453, 496-497) -/

/-- Lower-case hexadecimal digit character for `n < 16`. -/
def hexDigit (n : Nat) : Char :=
  if n < 10 then Char.ofNat (48 + n) else Char.ofNat (87 + n)

/-- `%02x`: two-digit zero-padded lower-case hex of an 8-bit value. -/
def hex2 (n : Nat) : String :=
  String.mk [hexDigit (n / 16 % 16), hexDigit (n % 16)]

/-- `%01x`: one-digit lower-case hex. -/
def hex1 (n : Nat) : String :=
  String.mk [hexDigit (n % 16)]

/-- `%03u`: decimal with zero padding to three digits. -/
def dec3 (n : Nat) : String :=
  if n < 10 then "00" ++ Nat.repr n
  else if n < 100 then "0" ++ Nat.repr n
  else Nat.repr n

/-- Modelled from the spec: the BDF unpacking macros of the missing
binding header, splitting a packed bus:device.function address
(bus in bits 15-8, device in bits 7-3, function in bits 2-0). -/
def BIND_PCI_BDF_UNPACK_BUS (bdf : Nat) : Nat := bdf >>> 8 &&& 0xFF

/-- Modelled from the spec: device field of the packed BDF address. -/
def BIND_PCI_BDF_UNPACK_DEV (bdf : Nat) : Nat := bdf >>> 3 &&& 0x1F

/-- Modelled from the spec: function field of the packed BDF address. -/
def BIND_PCI_BDF_UNPACK_FUNC (bdf : Nat) : Nat := bdf &&& 0x7

/-- The debug tag produced by `SetupPCIDevice` (lines 115-124):
`IHDA Controller bb:dd.f` from the BDF address when the device
property is available, else a fixed fallback string. -/
def pciDebugTag (bdf_avail : Bool) (bdf_addr : Nat) : String :=
  if bdf_avail then
    "IHDA Controller " ++ hex2 (BIND_PCI_BDF_UNPACK_BUS bdf_addr) ++ ":"
      ++ hex2 (BIND_PCI_BDF_UNPACK_DEV bdf_addr) ++ "."
      ++ hex1 (BIND_PCI_BDF_UNPACK_FUNC bdf_addr)
  else
    "IHDA Controller (unknown BDF)"

/-- The device name generated by `InitInternal` at line 452
(`intel-hda-%03u` from the controller id), which overwrites
`debug_tag_` before `device_init`. -/
def generatedDeviceName (ctrl_id : Nat) : String :=
  "intel-hda-" ++ dec3 ctrl_id

/-- The `debug_tag_` update of line 452: the `snprintf` overwrites the
previous tag unconditionally with the generated device name. -/
def debugTagAfterNameGen (_prev_tag : String) (ctrl_id : Nat) : String :=
  generatedDeviceName ctrl_id

/-- The name `InitInternal` supplies to device publication: the value
`debug_tag_` holds at `device_init` (line 453) / `device_add` (line
497), i.e. the tag set by `SetupPCIDevice` after line 452 has
overwritten it with the generated device name. -/
def nameSuppliedToPublication (bdf_avail : Bool) (bdf_addr ctrl_id : Nat) : String :=
  debugTagAfterNameGen (pciDebugTag bdf_avail bdf_addr) ctrl_id

/-! ## Spec-side definitions (for refinement comparison)

These follow the spec's words, to be compared with the definitions
translated from the source above. -/

/-- The capability bit the spec associates with entry count `c`. -/
def capBitFor (c : Nat) : Nat :=
  if c = 256 then HDA_REG_CORBSIZE_CAP_256ENT
  else if c = 16 then HDA_REG_CORBSIZE_CAP_16ENT
  else HDA_REG_CORBSIZE_CAP_2ENT

/-- The configuration code the spec associates with entry count `c`. -/
def cfgFor (c : Nat) : Nat :=
  if c = 256 then HDA_REG_CORBSIZE_CFG_256ENT
  else if c = 16 then HDA_REG_CORBSIZE_CFG_16ENT
  else HDA_REG_CORBSIZE_CFG_2ENT

/-- Spec-side selection rule: the strictly largest entry count from the
ordered set 256, 16, 2 whose capability bit is set in the register,
`none` when no bit of the three is set. -/
def specLargestSupportedEntryCount (size_reg : Nat) : Option Nat :=
  [256, 16, 2].find? fun c => decide (size_reg &&& capBitFor c ≠ 0)

/-- Spec-side formula for `corb_max_in_flight_`:
`min(corb_mask_, rirb_mask_ - RESERVED_RESPONSE_SLOTS)` clamped to be
at least 1 (natural-number truncated subtraction). -/
def specCorbMaxInFlight (corb_entry_count rirb_entry_count : Nat) : Nat :=
  max 1 (min (corb_entry_count - 1)
             ((rirb_entry_count - 1) - RIRB_RESERVED_RESPONSE_SLOTS))

/-! ## Claim theorems -/

/-- C1: for every 8-bit value read from a ring size-capability
register, `SetupCommandBufferSize` selects the strictly largest entry
count from the ordered set 256, 16, 2 whose capability bit is set,
stores it in `*entry_count`, and writes the matching configuration
code back to the register; when none of the three capability bits is
set it fails with `ERR_BAD_STATE`, leaving the register and the output
parameter as they were. -/
theorem C1_ring_size_selects_largest (size_reg entry_count0 : Nat)
    (hreg : size_reg < 256) :
    setupCommandBufferSize size_reg entry_count0 =
      (match specLargestSupportedEntryCount size_reg with
       | some c => ⟨Status.NO_ERROR, cfgFor c, c⟩
       | none => ⟨Status.ERR_BAD_STATE, size_reg, entry_count0⟩) := by
  by_cases h256 : size_reg &&& HDA_REG_CORBSIZE_CAP_256ENT = 0 <;>
    by_cases h16 : size_reg &&& HDA_REG_CORBSIZE_CAP_16ENT = 0 <;>
      by_cases h2 : size_reg &&& HDA_REG_CORBSIZE_CAP_2ENT = 0 <;>
        simp [setupCommandBufferSize, specLargestSupportedEntryCount, List.find?,
              capBitFor, cfgFor, h256, h16, h2]

/-- C1 witness: register value 0x75 advertises all three sizes and
256 entries are selected. -/
theorem C1_ring_size_selects_largest_witness :
    (0x75 : Nat) < 256 ∧
    setupCommandBufferSize 0x75 0 =
      (match specLargestSupportedEntryCount 0x75 with
       | some c => ⟨Status.NO_ERROR, cfgFor c, c⟩
       | none => ⟨Status.ERR_BAD_STATE, 0x75, 0⟩) :=
  ⟨by decide, C1_ring_size_selects_largest 0x75 0 (by decide)⟩

/-- C2: for every entry-count pair drawn from the supported set,
`corb_max_in_flight_` as computed by `SetupCommandBuffer` equals
`min(corb_mask_, rirb_mask_ - RESERVED_RESPONSE_SLOTS)` clamped to at
least 1, always lies in `[1, corb_mask_]`, and in particular a
16-entry CORB with a 256-entry RIRB yields 15. -/
theorem C2_corb_max_in_flight_clamped (c r : Nat)
    (hc : c = 2 ∨ c = 16 ∨ c = 256) (hr : r = 2 ∨ r = 16 ∨ r = 256) :
    computeCorbMaxInFlight c r = specCorbMaxInFlight c r
    ∧ 1 ≤ computeCorbMaxInFlight c r
    ∧ computeCorbMaxInFlight c r ≤ c - 1
    ∧ computeCorbMaxInFlight 16 256 = 15 := by
  rcases hc with rfl | rfl | rfl <;> rcases hr with rfl | rfl | rfl <;> decide

/-- C2 witness: the 16-entry CORB / 256-entry RIRB pair of the spec's
end-to-end property. -/
theorem C2_corb_max_in_flight_clamped_witness :
    ((16 : Nat) = 2 ∨ (16 : Nat) = 16 ∨ (16 : Nat) = 256)
    ∧ ((256 : Nat) = 2 ∨ (256 : Nat) = 16 ∨ (256 : Nat) = 256)
    ∧ (computeCorbMaxInFlight 16 256 = specCorbMaxInFlight 16 256
       ∧ 1 ≤ computeCorbMaxInFlight 16 256
       ∧ computeCorbMaxInFlight 16 256 ≤ 16 - 1
       ∧ computeCorbMaxInFlight 16 256 = 15) :=
  ⟨by decide, by decide,
   C2_corb_max_in_flight_clamped 16 256 (by decide) (by decide)⟩

/-- C7: for every supported RIRB entry count, the response-interrupt
threshold written to RINTCNT is `rirb_entry_count_ - 1`, reduced by
the reserved-slot headroom constant exactly when `rirb_entry_count_ - 1`
exceeds that constant, and is always at least 1. -/
theorem C7_rirb_interrupt_threshold (r : Nat)
    (hr : r = 2 ∨ r = 16 ∨ r = 256) :
    computeRirbIntCnt r =
      (r - 1) - (if RIRB_RESERVED_RESPONSE_SLOTS < r - 1
                 then RIRB_RESERVED_RESPONSE_SLOTS else 0)
    ∧ 1 ≤ computeRirbIntCnt r := by
  rcases hr with rfl | rfl | rfl <;> decide

/-- C7 witness: a 256-entry RIRB programs a threshold of 247. -/
theorem C7_rirb_interrupt_threshold_witness :
    ((256 : Nat) = 2 ∨ (256 : Nat) = 16 ∨ (256 : Nat) = 256)
    ∧ (computeRirbIntCnt 256 =
         (256 - 1) - (if RIRB_RESERVED_RESPONSE_SLOTS < 256 - 1
                      then RIRB_RESERVED_RESPONSE_SLOTS else 0)
       ∧ 1 ≤ computeRirbIntCnt 256) :=
  ⟨by decide, C7_rirb_interrupt_threshold 256 (by decide)⟩

/-- The polling primitive returns either success or a timeout
failure; it has no other outcome. -/
theorem waitCondition_eq_or (t p : Nat) (c : Nat → Bool) :
    waitCondition t p c = Status.NO_ERROR ∨ waitCondition t p c = Status.ERR_TIMED_OUT := by
  unfold waitCondition
  split
  · exact Or.inl rfl
  · exact Or.inr rfl

/-- Counting the indices below `k` among `0, ..., n-1`. -/
theorem countP_range_lt (k : Nat) :
    ∀ n, (List.range n).countP (fun i => decide (i < k)) = min k n := by
  intro n
  induction n with
  | zero => simp
  | succ n ih =>
    rw [List.range_succ, List.countP_append, ih, List.countP_singleton]
    by_cases h : n < k <;> simp [h] <;> omega

/-- Counting the indices in the band `[k1, k2)` among `0, ..., n-1`. -/
theorem countP_range_band (k1 k2 : Nat) :
    ∀ n, (List.range n).countP (fun i => decide (k1 ≤ i ∧ i < k2))
      = min k2 n - min k1 n := by
  intro n
  induction n with
  | zero => simp
  | succ n ih =>
    rw [List.range_succ, List.countP_append, ih, List.countP_singleton]
    by_cases h1 : k1 ≤ n <;> by_cases h2 : n < k2 <;> simp [h1, h2] <;> omega

/-- Counting the indices at least `k` among `0, ..., n-1`. -/
theorem countP_range_ge (k : Nat) :
    ∀ n, (List.range n).countP (fun i => decide (k ≤ i)) = n - min k n := by
  intro n
  induction n with
  | zero => simp
  | succ n ih =>
    rw [List.range_succ, List.countP_append, ih, List.countP_singleton]
    by_cases h : k ≤ n <;> simp [h] <;> omega

/-- Index `i` is classified INPUT exactly when `i < input_stream_cnt`. -/
theorem streamTypeFor_eq_INPUT (a b i : Nat) :
    streamTypeFor a b i = StreamType.INPUT ↔ i < a := by
  unfold streamTypeFor
  by_cases h1 : i < a
  · simp [h1]
  · by_cases h2 : i < a + b <;> simp [h1, h2]

/-- Index `i` is classified OUTPUT exactly when it lies in the output
band. -/
theorem streamTypeFor_eq_OUTPUT (a b i : Nat) :
    streamTypeFor a b i = StreamType.OUTPUT ↔ a ≤ i ∧ i < a + b := by
  unfold streamTypeFor
  by_cases h1 : i < a
  · simp [h1]
  · by_cases h2 : i < a + b <;> simp [h1, h2] <;> omega

/-- Index `i` is classified BIDIR exactly when it is past both bands. -/
theorem streamTypeFor_eq_BIDIR (a b i : Nat) :
    streamTypeFor a b i = StreamType.BIDIR ↔ a + b ≤ i := by
  unfold streamTypeFor
  by_cases h1 : i < a
  · simp [h1]
    omega
  · by_cases h2 : i < a + b <;> simp [h1, h2] <;> omega

/-- Membership in the constructed descriptor list. -/
theorem mem_mkStreamDescs {a b n bsz : Nat} {d : StreamDesc} :
    d ∈ mkStreamDescs a b n bsz ↔
      ∃ i, i < n ∧ d = ⟨streamTypeFor a b i, i + 1, i * bsz⟩ := by
  unfold mkStreamDescs
  constructor
  · intro hd
    rcases List.mem_map.mp hd with ⟨i, hi, rfl⟩
    exact ⟨i, List.mem_range.mp hi, rfl⟩
  · rintro ⟨i, hi, rfl⟩
    exact List.mem_map.mpr ⟨i, List.mem_range.mpr hi, rfl⟩

/-- Exactly `a` descriptors of the constructed list are INPUT. -/
theorem mkStreamDescs_count_input (a b n bsz : Nat) (h : a ≤ n) :
    (mkStreamDescs a b n bsz).countP (fun d => d.type == StreamType.INPUT) = a := by
  unfold mkStreamDescs
  rw [List.countP_map]
  have hc : ∀ x ∈ List.range n,
      ((fun d : StreamDesc => d.type == StreamType.INPUT) ∘ fun i =>
        ({ type := streamTypeFor a b i, stream_id := i + 1, bdl_off := i * bsz } : StreamDesc)) x
      ↔ (fun i => decide (i < a)) x := by
    intro i _
    simp [streamTypeFor_eq_INPUT]
  rw [List.countP_congr hc, countP_range_lt]
  omega

/-- Exactly `b` descriptors of the constructed list are OUTPUT. -/
theorem mkStreamDescs_count_output (a b n bsz : Nat) (h : a + b ≤ n) :
    (mkStreamDescs a b n bsz).countP (fun d => d.type == StreamType.OUTPUT) = b := by
  unfold mkStreamDescs
  rw [List.countP_map]
  have hc : ∀ x ∈ List.range n,
      ((fun d : StreamDesc => d.type == StreamType.OUTPUT) ∘ fun i =>
        ({ type := streamTypeFor a b i, stream_id := i + 1, bdl_off := i * bsz } : StreamDesc)) x
      ↔ (fun i => decide (a ≤ i ∧ i < a + b)) x := by
    intro i _
    simp [streamTypeFor_eq_OUTPUT]
  rw [List.countP_congr hc, countP_range_band]
  omega

/-- The remaining descriptors of the constructed list are BIDIR. -/
theorem mkStreamDescs_count_bidir (a b n bsz : Nat) (h : a + b ≤ n) :
    (mkStreamDescs a b n bsz).countP (fun d => d.type == StreamType.BIDIR) = n - (a + b) := by
  unfold mkStreamDescs
  rw [List.countP_map]
  have hc : ∀ x ∈ List.range n,
      ((fun d : StreamDesc => d.type == StreamType.BIDIR) ∘ fun i =>
        ({ type := streamTypeFor a b i, stream_id := i + 1, bdl_off := i * bsz } : StreamDesc)) x
      ↔ (fun i => decide (a + b ≤ i)) x := by
    intro i _
    simp [streamTypeFor_eq_BIDIR]
  rw [List.countP_congr hc, countP_range_ge]
  omega

/-- The stream ids of the constructed list are pairwise distinct. -/
theorem mkStreamDescs_ids_nodup (a b n bsz : Nat) :
    ((mkStreamDescs a b n bsz).map StreamDesc.stream_id).Nodup := by
  unfold mkStreamDescs
  rw [List.map_map]
  have he : (StreamDesc.stream_id ∘ fun i =>
      ({ type := streamTypeFor a b i, stream_id := i + 1, bdl_off := i * bsz } : StreamDesc))
      = fun i => i + 1 := rfl
  rw [he]
  exact List.Nodup.map (fun x y hxy => by simpa using hxy) (List.nodup_range n)

/-- C3: with a command-buffer physical address of at least `2^32`,
base-address programming fails with `ERR_NOT_SUPPORTED` before any
base register is written when the 64-bit capability is absent, and
with the capability present it programs each ring's base split into
low and high 32-bit halves (the RIRB base at `HDA_CORB_MAX_BYTES` past
the CORB base); address `0x1_0000_0080` yields CORB low `0x80` and
high `0x1`. -/
theorem C3_base_address_programming (paddr : Nat) (h64 : 2 ^ 32 ≤ paddr) :
    programCmdBufBases paddr false = Except.error Status.ERR_NOT_SUPPORTED
    ∧ programCmdBufBases paddr true = Except.ok
        { corblbase := paddr % 2 ^ 32
          corbubase := paddr / 2 ^ 32 % 2 ^ 32
          rirblbase := (paddr + HDA_CORB_MAX_BYTES) % 2 ^ 32
          rirbubase := (paddr + HDA_CORB_MAX_BYTES) / 2 ^ 32 % 2 ^ 32 }
    ∧ programCmdBufBases 0x100000080 true =
        Except.ok { corblbase := 0x80, corbubase := 1, rirblbase := 0x480, rirbubase := 1 } := by
  have hsh : paddr >>> 32 ≠ 0 := by
    rw [Nat.shiftRight_eq_div_pow]
    exact Nat.ne_of_gt (Nat.div_pos h64 (by norm_num))
  have hmask : (0xFFFFFFFF : Nat) = 2 ^ 32 - 1 := by norm_num
  have e1 : paddr &&& 0xFFFFFFFF = paddr % 2 ^ 32 := by
    rw [hmask]
    exact Nat.and_pow_two_sub_one_eq_mod paddr 32
  have e2 : (paddr + HDA_CORB_MAX_BYTES) &&& 0xFFFFFFFF
      = (paddr + HDA_CORB_MAX_BYTES) % 2 ^ 32 := by
    rw [hmask]
    exact Nat.and_pow_two_sub_one_eq_mod _ 32
  refine ⟨?_, ?_, ?_⟩
  · simp [programCmdBufBases, hsh]
  · unfold programCmdBufBases
    rw [if_neg (by simp)]
    simp only [e1, e2, Nat.shiftRight_eq_div_pow]
  · rfl

/-- C3 witness: the spec's example address `0x1_0000_0080`. -/
theorem C3_base_address_programming_witness :
    2 ^ 32 ≤ (0x100000080 : Nat)
    ∧ (programCmdBufBases 0x100000080 false = Except.error Status.ERR_NOT_SUPPORTED
       ∧ programCmdBufBases 0x100000080 true = Except.ok
           { corblbase := 0x100000080 % 2 ^ 32
             corbubase := 0x100000080 / 2 ^ 32 % 2 ^ 32
             rirblbase := (0x100000080 + HDA_CORB_MAX_BYTES) % 2 ^ 32
             rirbubase := (0x100000080 + HDA_CORB_MAX_BYTES) / 2 ^ 32 % 2 ^ 32 }
       ∧ programCmdBufBases 0x100000080 true =
           Except.ok { corblbase := 0x80, corbubase := 1, rirblbase := 0x480, rirbubase := 1 }) :=
  ⟨by norm_num, C3_base_address_programming 0x100000080 (by norm_num)⟩

/-- C4: for every stream-count triple with nonzero total not
exceeding the maximum slot count, `SetupStreamDescriptors` succeeds
and creates exactly `input` INPUT, `output` OUTPUT and the remaining
BIDIR descriptors; descriptor ids are the 1-based indices, unique and
within `[1, total]`; each descriptor's BDL sub-region starts at
`(id - 1) * bdl_size`, and any two distinct descriptors' BDL regions
are disjoint. -/
theorem C4_stream_classification (input_stream_cnt output_stream_cnt bidir_stream_cnt : Nat)
    (hpos : 0 < input_stream_cnt + output_stream_cnt + bidir_stream_cnt)
    (hmax : input_stream_cnt + output_stream_cnt + bidir_stream_cnt
              ≤ MAX_STREAMS_PER_CONTROLLER) :
    (setupStreamDescriptors input_stream_cnt output_stream_cnt bidir_stream_cnt
        true true).status = Status.NO_ERROR
    ∧ (setupStreamDescriptors input_stream_cnt output_stream_cnt bidir_stream_cnt
        true true).streams.length
        = input_stream_cnt + output_stream_cnt + bidir_stream_cnt
    ∧ (setupStreamDescriptors input_stream_cnt output_stream_cnt bidir_stream_cnt
        true true).streams.countP (fun d => d.type == StreamType.INPUT)
        = input_stream_cnt
    ∧ (setupStreamDescriptors input_stream_cnt output_stream_cnt bidir_stream_cnt
        true true).streams.countP (fun d => d.type == StreamType.OUTPUT)
        = output_stream_cnt
    ∧ (setupStreamDescriptors input_stream_cnt output_stream_cnt bidir_stream_cnt
        true true).streams.countP (fun d => d.type == StreamType.BIDIR)
        = bidir_stream_cnt
    ∧ (∀ d ∈ (setupStreamDescriptors input_stream_cnt output_stream_cnt bidir_stream_cnt
          true true).streams,
        1 ≤ d.stream_id
        ∧ d.stream_id ≤ input_stream_cnt + output_stream_cnt + bidir_stream_cnt
        ∧ d.bdl_off = (d.stream_id - 1) * bdl_size)
    ∧ ((setupStreamDescriptors input_stream_cnt output_stream_cnt bidir_stream_cnt
          true true).streams.map StreamDesc.stream_id).Nodup
    ∧ (∀ d1 ∈ (setupStreamDescriptors input_stream_cnt output_stream_cnt bidir_stream_cnt
          true true).streams,
       ∀ d2 ∈ (setupStreamDescriptors input_stream_cnt output_stream_cnt bidir_stream_cnt
          true true).streams,
        d1 ≠ d2 →
        ∀ x, d1.bdl_off ≤ x → x < d1.bdl_off + bdl_size →
          ¬(d2.bdl_off ≤ x ∧ x < d2.bdl_off + bdl_size)) := by
  have hM : MAX_STREAMS_PER_CONTROLLER = 30 := rfl
  have hcond : ¬(input_stream_cnt + output_stream_cnt + bidir_stream_cnt = 0
      ∨ input_stream_cnt + output_stream_cnt + bidir_stream_cnt
          > MAX_STREAMS_PER_CONTROLLER) := by
    omega
  have hset : setupStreamDescriptors input_stream_cnt output_stream_cnt bidir_stream_cnt
      true true =
      { status := Status.NO_ERROR
        bdl_alloc_bytes :=
          some (bdl_size * (input_stream_cnt + output_stream_cnt + bidir_stream_cnt))
        streams := mkStreamDescs input_stream_cnt output_stream_cnt
          (input_stream_cnt + output_stream_cnt + bidir_stream_cnt) bdl_size } := by
    simp only [setupStreamDescriptors]
    rw [if_neg hcond]
    rfl
  rw [hset]
  refine ⟨rfl, ?_, ?_, ?_, ?_, ?_, ?_, ?_⟩
  · simp [mkStreamDescs]
  · exact mkStreamDescs_count_input _ _ _ _ (by omega)
  · exact mkStreamDescs_count_output _ _ _ _ (by omega)
  · rw [mkStreamDescs_count_bidir _ _ _ _ (by omega)]
    omega
  · intro d hd
    rcases mem_mkStreamDescs.mp hd with ⟨i, hi, rfl⟩
    refine ⟨?_, ?_, ?_⟩
    · show 1 ≤ i + 1
      omega
    · show i + 1 ≤ input_stream_cnt + output_stream_cnt + bidir_stream_cnt
      omega
    · show i * bdl_size = (i + 1 - 1) * bdl_size
      simp
  · exact mkStreamDescs_ids_nodup _ _ _ _
  · intro d1 h1 d2 h2 hne x hx1 hx2 hx3
    rcases mem_mkStreamDescs.mp h1 with ⟨i, hi, rfl⟩
    rcases mem_mkStreamDescs.mp h2 with ⟨j, hj, rfl⟩
    have hij : i ≠ j := fun hij => hne (by rw [hij])
    have hx1' : i * 4096 ≤ x := hx1
    have hx2' : x < i * 4096 + 4096 := hx2
    have hy1' : j * 4096 ≤ x := hx3.1
    have hy2' : x < j * 4096 + 4096 := hx3.2
    omega

/-- C4 witness: the spec's end-to-end triple of 4 input, 4 output and
0 bidirectional streams. -/
theorem C4_stream_classification_witness :
    0 < 4 + 4 + 0
    ∧ 4 + 4 + 0 ≤ MAX_STREAMS_PER_CONTROLLER
    ∧ ((setupStreamDescriptors 4 4 0 true true).status = Status.NO_ERROR
       ∧ (setupStreamDescriptors 4 4 0 true true).streams.length = 4 + 4 + 0
       ∧ (setupStreamDescriptors 4 4 0 true true).streams.countP
           (fun d => d.type == StreamType.INPUT) = 4
       ∧ (setupStreamDescriptors 4 4 0 true true).streams.countP
           (fun d => d.type == StreamType.OUTPUT) = 4
       ∧ (setupStreamDescriptors 4 4 0 true true).streams.countP
           (fun d => d.type == StreamType.BIDIR) = 0
       ∧ (∀ d ∈ (setupStreamDescriptors 4 4 0 true true).streams,
           1 ≤ d.stream_id ∧ d.stream_id ≤ 4 + 4 + 0
           ∧ d.bdl_off = (d.stream_id - 1) * bdl_size)
       ∧ ((setupStreamDescriptors 4 4 0 true true).streams.map
            StreamDesc.stream_id).Nodup
       ∧ (∀ d1 ∈ (setupStreamDescriptors 4 4 0 true true).streams,
          ∀ d2 ∈ (setupStreamDescriptors 4 4 0 true true).streams,
           d1 ≠ d2 →
           ∀ x, d1.bdl_off ≤ x → x < d1.bdl_off + bdl_size →
             ¬(d2.bdl_off ≤ x ∧ x < d2.bdl_off + bdl_size))) :=
  ⟨by decide, by decide, C4_stream_classification 4 4 0 (by decide) (by decide)⟩

/-- C5: `ResetControllerHW` performs, in strict order, clear-bit,
barrier, poll-for-cleared, hold sleep, set-bit, barrier, poll-for-set,
discovery sleep; whichever polling wait fails does so with
`ERR_TIMED_OUT` and none of the later steps runs; and a GCTL that
never acknowledges (HWINIT always reading as set) forces the timeout
outcome of the first wait. -/
theorem C5_reset_sequence (phase1_reads phase2_reads : Nat → Nat) :
    resetControllerHW phase1_reads phase2_reads =
      (if waitCondition INTEL_HDA_RESET_TIMEOUT_NSEC INTEL_HDA_RESET_POLL_TIMEOUT_NSEC
            (gctlClearedPred phase1_reads) = Status.NO_ERROR then
         if waitCondition INTEL_HDA_RESET_TIMEOUT_NSEC INTEL_HDA_RESET_POLL_TIMEOUT_NSEC
              (gctlSetPred phase2_reads) = Status.NO_ERROR then
           (Status.NO_ERROR,
            [ResetStep.clearHwInit, ResetStep.barrierA, ResetStep.pollCleared,
             ResetStep.sleepHold, ResetStep.setHwInit, ResetStep.barrierB,
             ResetStep.pollSet, ResetStep.sleepDiscovery])
         else
           (Status.ERR_TIMED_OUT,
            [ResetStep.clearHwInit, ResetStep.barrierA, ResetStep.pollCleared,
             ResetStep.sleepHold, ResetStep.setHwInit, ResetStep.barrierB,
             ResetStep.pollSet])
       else
         (Status.ERR_TIMED_OUT,
          [ResetStep.clearHwInit, ResetStep.barrierA, ResetStep.pollCleared]))
    ∧ resetControllerHW (fun _ => HDA_REG_GCTL_HWINIT) phase2_reads =
        (Status.ERR_TIMED_OUT,
         [ResetStep.clearHwInit, ResetStep.barrierA, ResetStep.pollCleared]) := by
  constructor
  · rcases waitCondition_eq_or INTEL_HDA_RESET_TIMEOUT_NSEC INTEL_HDA_RESET_POLL_TIMEOUT_NSEC
        (gctlClearedPred phase1_reads) with h1 | h1
    · rcases waitCondition_eq_or INTEL_HDA_RESET_TIMEOUT_NSEC INTEL_HDA_RESET_POLL_TIMEOUT_NSEC
          (gctlSetPred phase2_reads) with h2 | h2
      · simp [resetControllerHW, h1, h2]
      · simp [resetControllerHW, h1, h2]
    · simp [resetControllerHW, h1]
  · rfl

/-- C6: whenever the input/output/bidirectional stream counts read
from GCAP sum to zero or exceed the maximum slot count,
`SetupStreamDescriptors` fails with `ERR_INTERNAL`, attempts no BDL
allocation, and creates no stream descriptors. -/
theorem C6_stream_count_guard (input_stream_cnt output_stream_cnt bidir_stream_cnt : Nat)
    (alloc_ok map_ok : Bool)
    (h : input_stream_cnt + output_stream_cnt + bidir_stream_cnt = 0
         ∨ input_stream_cnt + output_stream_cnt + bidir_stream_cnt > MAX_STREAMS_PER_CONTROLLER) :
    setupStreamDescriptors input_stream_cnt output_stream_cnt bidir_stream_cnt alloc_ok map_ok =
      { status := Status.ERR_INTERNAL, bdl_alloc_bytes := none, streams := [] } := by
  unfold setupStreamDescriptors
  exact if_pos h

/-- C6 witness: a GCAP advertising zero streams in all three classes. -/
theorem C6_stream_count_guard_witness :
    ((0 : Nat) + 0 + 0 = 0 ∨ (0 : Nat) + 0 + 0 > MAX_STREAMS_PER_CONTROLLER)
    ∧ setupStreamDescriptors 0 0 0 true true =
        { status := Status.ERR_INTERNAL, bdl_alloc_bytes := none, streams := [] } :=
  ⟨Or.inl rfl, C6_stream_count_guard 0 0 0 true true (Or.inl rfl)⟩

/-- C8: a null device pointer makes `Init` fail with
`ERR_INVALID_ARGS`, and an already-populated device pointer makes it
fail with `ERR_BAD_STATE`; in both cases the action list is empty, so
no resource acquisition or later bring-up step was attempted. -/
theorem C8_init_entry_checks (already_set_up : Bool)
    (rest : Status × List InitAction) :
    initGuard true already_set_up rest = (Status.ERR_INVALID_ARGS, [])
    ∧ initGuard false true rest = (Status.ERR_BAD_STATE, []) :=
  ⟨rfl, rfl⟩

/-- C9 counterexample: with the BDF property available (packed address
`0x0100`, bus 1 device 0 function 0, controller id 7), the name handed
to device publication is the generic `intel-hda-007`, not the
BDF-derived `IHDA Controller 01:00.0` tag the claim requires. -/
theorem C9_counterexample :
    nameSuppliedToPublication true 0x0100 7 ≠ pciDebugTag true 0x0100
    ∧ nameSuppliedToPublication true 0x0100 7 = "intel-hda-007"
    ∧ pciDebugTag true 0x0100 = "IHDA Controller 01:00.0" := by
  refine ⟨?_, rfl, rfl⟩
  decide

/-- C9 (amended): the bus:device.function tag (or its generic
fallback) is only the debug tag produced during PCI setup; the name
supplied to device publication is always the generated
`intel-hda-NNN` identifier, regardless of BDF availability. -/
theorem C9_amended_publication_name (bdf_addr ctrl_id : Nat) :
    nameSuppliedToPublication true bdf_addr ctrl_id = generatedDeviceName ctrl_id
    ∧ nameSuppliedToPublication false bdf_addr ctrl_id = generatedDeviceName ctrl_id
    ∧ pciDebugTag true bdf_addr =
        "IHDA Controller " ++ hex2 (BIND_PCI_BDF_UNPACK_BUS bdf_addr) ++ ":"
          ++ hex2 (BIND_PCI_BDF_UNPACK_DEV bdf_addr) ++ "."
          ++ hex1 (BIND_PCI_BDF_UNPACK_FUNC bdf_addr)
    ∧ pciDebugTag false bdf_addr = "IHDA Controller (unknown BDF)" :=
  ⟨rfl, rfl, rfl, rfl⟩

/-- C10: when no supported capability bit is set,
`SetupCommandBufferSize` fails with `ERR_BAD_STATE` having performed
no write: the size register keeps the value that was read and
`*entry_count` keeps its prior value. -/
theorem C10_failed_size_setup_writes_nothing (size_reg entry_count0 : Nat)
    (h256 : size_reg &&& HDA_REG_CORBSIZE_CAP_256ENT = 0)
    (h16 : size_reg &&& HDA_REG_CORBSIZE_CAP_16ENT = 0)
    (h2 : size_reg &&& HDA_REG_CORBSIZE_CAP_2ENT = 0) :
    setupCommandBufferSize size_reg entry_count0 =
      ⟨Status.ERR_BAD_STATE, size_reg, entry_count0⟩ := by
  simp [setupCommandBufferSize, h256, h16, h2]

/-- C10 witness: register value 0x8F has none of the three capability
bits set; the call leaves register value 0x8F and entry count 42
untouched. -/
theorem C10_failed_size_setup_writes_nothing_witness :
    ((0x8F : Nat) &&& HDA_REG_CORBSIZE_CAP_256ENT = 0)
    ∧ ((0x8F : Nat) &&& HDA_REG_CORBSIZE_CAP_16ENT = 0)
    ∧ ((0x8F : Nat) &&& HDA_REG_CORBSIZE_CAP_2ENT = 0)
    ∧ setupCommandBufferSize 0x8F 42 = ⟨Status.ERR_BAD_STATE, 0x8F, 42⟩ :=
  ⟨by decide, by decide, by decide,
   C10_failed_size_setup_writes_nothing 0x8F 42 (by decide) (by decide) (by decide)⟩

end IntelHDA
